import Mathlib

/-!
Verification of the BeeBoo MCP server (tool registry, dispatch and protocol
bridge) against its natural-language specification.

The development shallowly embeds the JavaScript sources:
  * `src/api.js`    — transport result shape and the envelope helpers
                      `isOk`, `getData`, `getError`;
  * `src/tools.js`  — the tool registry (`tools`), each tool's Zod input
                      schema and handler, and the dispatcher `executeTool`;
  * `src/server.js` — the per-tool protocol-bridge callbacks that wrap a
                      handler outcome into a protocol response.

JSON values are modelled by the inductive `JVal`.  JavaScript property
access `x.k` / `x?.k` is modelled by `jget` returning `Option JVal`
(`none` = `undefined`); truthiness by `jtruthy`; template-literal string
coercion by `jsToStr`; `JSON.stringify` by `jsonStringify`.  Numbers are
modelled as integers (no claim involves fractional values).  Reads of a
`length` property on plain (non-array, non-string) objects are not
modelled (`jlength` returns `none` there), matching the claims' scope.

The HTTP transport (`request` in `src/api.js`) is out of scope per the
spec; handlers receive it as an oracle `TransportFn` so that statements
can quantify over transport behaviour, fix a single result (`constT`),
or show a call never reaches the transport.
-/

/-- JSON values as produced by `JSON.parse` (numbers restricted to
integers; object fields in insertion order). -/
inductive JVal where
  | null : JVal
  | bool : Bool → JVal
  | num : Int → JVal
  | str : String → JVal
  | arr : List JVal → JVal
  | obj : List (String × JVal) → JVal

/-- JavaScript truthiness of a JSON value. -/
def jtruthy : JVal → Bool
  | .null => false
  | .bool b => b
  | .num n => n != 0
  | .str s => s != ""
  | .arr _ => true
  | .obj _ => true

/-- Truthiness of a possibly-`undefined` value (`none` = `undefined`,
which is falsy). -/
def optTruthy : Option JVal → Bool
  | none => false
  | some v => jtruthy v

/-- Property access `v?.k` (and `v.k` on a non-null receiver): the field
value when `v` is an object containing key `k`, else `undefined`. -/
def jget : JVal → String → Option JVal
  | .obj kvs, k => kvs.lookup k
  | _, _ => none

/-- Read of `v.length`: defined for strings and arrays; `none`
(`undefined`) otherwise. -/
def jlength : JVal → Option Nat
  | .str s => some s.length
  | .arr l => some l.length
  | _ => none

/-- The JavaScript `a || b` idiom on a possibly-undefined `a`. -/
def jsOrD (a : Option JVal) (d : JVal) : JVal :=
  match a with
  | some v => if jtruthy v then v else d
  | none => d

/-- First truthy value of a chain `a || b || ... || d` of possibly
undefined values, or `none` when the default itself is undefined. -/
def firstTruthyO : List (Option JVal) → Option JVal → Option JVal
  | [], d => d
  | o :: rest, d =>
    match o with
    | some v => if jtruthy v then some v else firstTruthyO rest d
    | none => firstTruthyO rest d

/-- Minimal JSON string escaping (backslash and double quote), used by
`jsonStringify`. -/
def jsEscape (s : String) : String :=
  String.mk (s.data.flatMap (fun c =>
    if c = '\\' then ['\\', '\\']
    else if c = '"' then ['\\', '"']
    else [c]))

mutual

/-- `JSON.stringify` on a JSON value. -/
def jsonStringify : JVal → String
  | .null => "null"
  | .bool b => if b then "true" else "false"
  | .num n => toString n
  | .str s => "\"" ++ jsEscape s ++ "\""
  | .arr l => "[" ++ jsonStringifyArr l ++ "]"
  | .obj kvs => "\x7b" ++ jsonStringifyObj kvs ++ "\x7d"

/-- Comma-joined serialization of array elements. -/
def jsonStringifyArr : List JVal → String
  | [] => ""
  | [v] => jsonStringify v
  | v :: vs => jsonStringify v ++ "," ++ jsonStringifyArr vs

/-- Comma-joined serialization of object fields. -/
def jsonStringifyObj : List (String × JVal) → String
  | [] => ""
  | [(k, v)] => "\"" ++ jsEscape k ++ "\":" ++ jsonStringify v
  | (k, v) :: kvs =>
    "\"" ++ jsEscape k ++ "\":" ++ jsonStringify v ++ "," ++ jsonStringifyObj kvs

end

mutual

/-- String coercion `String(v)` as performed by template literals. -/
def jsToStr : JVal → String
  | .null => "null"
  | .bool b => if b then "true" else "false"
  | .num n => toString n
  | .str s => s
  | .arr l => jsJoinWith "," l
  | .obj _ => "[object Object]"

/-- `Array.prototype.join(sep)`: elements coerced with `String`, except
`null` which joins as the empty string. -/
def jsJoinWith (sep : String) : List JVal → String
  | [] => ""
  | [.null] => ""
  | [v] => jsToStr v
  | .null :: vs => sep ++ jsJoinWith sep vs
  | v :: vs => jsToStr v ++ sep ++ jsJoinWith sep vs

end

/-- String coercion of a possibly-undefined value (template literals
render `undefined` as the string "undefined"). -/
def jsToStrO : Option JVal → String
  | none => "undefined"
  | some v => jsToStr v

/-- Strict equality `o === 's'` between a possibly-undefined value and a
string literal. -/
def isStrEq (o : Option JVal) (s : String) : Bool :=
  match o with
  | some (.str x) => x == s
  | _ => false

/-- Result of one HTTP request, as resolved by `request` in `src/api.js`:
status code, parsed JSON body (the raw text itself when parsing failed),
and the raw text. -/
structure TransportResult where
  status : Nat
  data : JVal
  raw : String

/-- Check if response is OK (2xx) — `isOk` in `src/api.js`. -/
def isOk (res : TransportResult) : Bool :=
  200 ≤ res.status && res.status < 300

/-- Extract data from a standard `\x7b data: ... \x7d` response —
`getData` in `src/api.js`. -/
def getData (res : TransportResult) : JVal :=
  match jget res.data "data" with
  | some v => v
  | none => res.data

/-- Extract an error message from a standard
`\x7b error: \x7b message: ... \x7d \x7d` response — `getError` in
`src/api.js`.  Mirrors the source's truthiness-guarded chain; the
returned value is what the JavaScript function returns (call sites
coerce it with a template literal, i.e. `jsToStr`). -/
def getError (res : TransportResult) : JVal :=
  if optTruthy ((jget res.data "error").bind (fun e => jget e "message")) then
    (((jget res.data "error").bind (fun e => jget e "message")).getD .null)
  else if optTruthy (jget res.data "error") then
    match (jget res.data "error").getD .null with
    | .str s => .str s
    | e => .str (jsonStringify e)
  else
    match res.data with
    | .str s => .str s
    | _ => .str ("HTTP " ++ toString res.status)

/-- Result of a tool handler: a rendered text plus the optional
structured data value (`ToolResult` of the spec's data model). -/
structure ToolResult where
  text : String
  data : Option JVal

/-- Validated arguments as produced by the dispatcher's schema check
(only schema-declared fields; unknown keys are stripped). -/
abbrev Args := List (String × JVal)

/-- Validated-argument lookup (destructuring in a handler's parameter
list; `none` = the field was absent). -/
def aget (args : Args) (k : String) : Option JVal :=
  List.lookup k args

/-- An object field that is dropped when the value is undefined
(matching `JSON.stringify`, which omits `undefined`-valued keys). -/
def ofld (k : String) : Option JVal → List (String × JVal)
  | some v => [(k, v)]
  | none => []

/-- One outbound HTTP request as issued through the `api.*` helpers of
`src/api.js`: method, path, optional JSON body, query parameters. -/
structure HttpReq where
  method : String
  path : String
  body : Option JVal
  query : List (String × JVal)

/-- The transport oracle: the behaviour of `request` in `src/api.js`
(out of scope per the spec).  `Except.error` models a rejected promise
(network error / timeout). -/
def TransportFn := HttpReq → Except String TransportResult

/-- A transport that resolves every request with the same fixed
result. -/
def constT (res : TransportResult) : TransportFn := fun _ => .ok res

/-- Resolution of the search payload to a result list —
`Array.isArray(data) ? data : (data?.results || [])` in
`beeboo_knowledge_search.handler`. -/
def resolveResults (d : JVal) : JVal :=
  match d with
  | .arr l => .arr l
  | _ => jsOrD (jget d "results") (.arr [])

/-- Content column of one search result (lines 40–42 of `tools.js`):
truthy content is truncated to 200 characters plus an ellipsis when
longer than 200; falsy content renders as the empty string. -/
def renderContent (c : Option JVal) : JVal :=
  match c with
  | some v =>
    if jtruthy v then
      match jlength v with
      | some n =>
        if n > 200 then
          match v with
          | .str s => .str (s.take 200 ++ "...")
          | .arr l => .str (jsToStr (.arr (l.take 200)) ++ "...")
          | w => w
        else v
      | none => v
    else .str ""
  | none => .str ""

/-- One line of the search summary (`results.map((r, i) => ...)` in
`beeboo_knowledge_search.handler`). -/
def renderResult (i : Nat) (r : JVal) : String :=
  let title := jsToStrO (firstTruthyO [jget r "title", jget r "key"] (some (.str "(untitled)")))
  let idPart :=
    match jget r "id" with
    | some v => if jtruthy v then " (" ++ jsToStr v ++ ")" else ""
    | none => ""
  toString (i + 1) ++ ". **" ++ title ++ "**" ++ idPart ++ "\n   " ++
    jsToStr (renderContent (jget r "content"))

/-- The joined, enumerated search summary (original order, 0-based map
index rendered 1-based). -/
def renderResults (l : List JVal) : String :=
  String.intercalate "\n\n" (l.enum.map (fun p => renderResult p.1 p.2))

/-- Handler of `beeboo_knowledge_search` (`tools.js` lines 24–50). -/
def searchHandler (args : Args) (t : TransportFn) : Except String ToolResult := do
  let q := aget args "query"
  let res ← t ⟨"POST", "/api/v1/knowledge/search",
    some (.obj (ofld "query" q ++ [("limit", .num 10)])), []⟩
  if !(isOk res) then
    throw ("Search failed: " ++ jsToStr (getError res))
  else
    match resolveResults (getData res) with
    | .arr [] => pure ⟨"No results found for \"" ++ jsToStrO q ++ "\"", none⟩
    | .arr l => pure ⟨"Found " ++ toString l.length ++ " result(s) for \"" ++ jsToStrO q ++
        "\":\n\n" ++ renderResults l, some (.arr l)⟩
    | _ => throw "TypeError: results.map is not a function"

/-- Character class `[a-z0-9]` of the slug regex in
`beeboo_knowledge_add.handler`. -/
def isSlugChar (c : Char) : Bool :=
  ('a' ≤ c && c ≤ 'z') || ('0' ≤ c && c ≤ '9')

/-- Global replace of `[^a-z0-9]+` by a single dash, as a left-to-right
scan; the flag records whether the previous character was inside a
replaced run. -/
def collapseAux : Bool → List Char → List Char
  | _, [] => []
  | inRun, c :: cs =>
    if isSlugChar c then c :: collapseAux false cs
    else if inRun then collapseAux true cs
    else '-' :: collapseAux true cs

/-- Removal of one leading dash (the `^-` alternative of the trim
regex). -/
def dropOneLead : List Char → List Char
  | [] => []
  | c :: cs => if c = '-' then cs else c :: cs

/-- Removal of one trailing dash (the `-$` alternative of the trim
regex). -/
def dropOneTrail (l : List Char) : List Char :=
  (dropOneLead l.reverse).reverse

/-- Slug derivation of `beeboo_knowledge_add.handler` (line 67 of
`tools.js`): lowercase, replace `[^a-z0-9]+` runs by `-`, strip the
`^-|-$` matches. -/
def slugify (title : String) : String :=
  String.mk (dropOneTrail (dropOneLead (collapseAux false (title.data.map Char.toLower))))

/-- Handler of `beeboo_knowledge_add` (`tools.js` lines 61–86).  A
non-string title raises a TypeError in the source (`title.toLowerCase`);
validated arguments always carry a string there. -/
def knowledgeAddHandler (args : Args) (t : TransportFn) : Except String ToolResult := do
  match aget args "title" with
  | some (.str title) =>
    let tagsField : List (String × JVal) :=
      match aget args "tags" with
      | some v =>
        if jtruthy v && (match jlength v with | some n => decide (n > 0) | none => false) then
          [("tags", v)]
        else []
      | none => []
    let entry : JVal := .obj ([("title", .str title)] ++ ofld "content" (aget args "content") ++
      [("namespace", .str "default"), ("content_type", .str "text"),
       ("key", .str (slugify title))] ++ tagsField)
    let res ← t ⟨"POST", "/api/v1/knowledge/entries", some entry, []⟩
    if !(isOk res) then
      throw ("Failed to create entry: " ++ jsToStr (getError res))
    else
      let d := getData res
      pure ⟨"✅ Knowledge entry created: \"" ++ title ++ "\"" ++
        (match jget d "id" with
         | some v => if jtruthy v then " (ID: " ++ jsToStr v ++ ")" else ""
         | none => ""), some d⟩
  | _ => throw "TypeError: title.toLowerCase is not a function"

/-- Coercion of a 2xx payload to an item list —
`Array.isArray(x) ? x : []` in the three list handlers. -/
def toItems (d : JVal) : List JVal :=
  match d with
  | .arr l => l
  | _ => []

/-- The `id?.slice(0, 8) || '—'` fragment of the list renderers.  A
defined non-null receiver without a `slice` method raises a TypeError
in the source. -/
def jsIdPart (o : Option JVal) : Except String String :=
  match o with
  | none => pure "—"
  | some .null => pure "—"
  | some (.str s) => pure (jsToStr (jsOrD (some (.str (s.take 8))) (.str "—")))
  | some (.arr l) => pure (jsToStr (jsOrD (some (.arr (l.take 8))) (.str "—")))
  | some _ => throw "TypeError: slice is not a function"

/-- The `e.tags?.length ? \x5b...join...\x5d : ''` fragment of the
knowledge list renderer; a string with nonzero length reaches `.join`
and raises a TypeError in the source. -/
def tagsPart (o : Option JVal) : Except String String :=
  match o with
  | some (.arr l) => if l.length != 0 then pure (" [" ++ jsJoinWith ", " l ++ "]") else pure ""
  | some (.str s) => if s.length != 0 then throw "TypeError: join is not a function" else pure ""
  | _ => pure ""

/-- One line of the knowledge list (`items.map((e, i) => ...)` in
`beeboo_knowledge_list.handler`). -/
def renderKnowledgeItem (i : Nat) (e : JVal) : Except String String := do
  let idv ← jsIdPart (jget e "id")
  let title := jsToStrO (firstTruthyO [jget e "title", jget e "key"] (some (.str "(untitled)")))
  let tags ← tagsPart (jget e "tags")
  pure (toString (i + 1) ++ ". " ++ title ++ " (" ++ idv ++ ")" ++ tags)

/-- Left-to-right indexed map over items, propagating the first thrown
error (JavaScript `Array.prototype.map` semantics under exceptions). -/
def renderItems (f : Nat → JVal → Except String String) : Nat → List JVal → Except String (List String)
  | _, [] => pure []
  | i, x :: xs => do
    let s ← f i x
    let rest ← renderItems f (i + 1) xs
    pure (s :: rest)

/-- Handler of `beeboo_knowledge_list` (`tools.js` lines 93–118). -/
def knowledgeListHandler (_args : Args) (t : TransportFn) : Except String ToolResult := do
  let res ← t ⟨"GET", "/api/v1/knowledge/entries", none, []⟩
  if !(isOk res) then
    throw ("Failed to list entries: " ++ jsToStr (getError res))
  else
    let items := toItems (getData res)
    if items.length = 0 then
      pure ⟨"No knowledge entries found.", some (.arr [])⟩
    else do
      let lines ← renderItems renderKnowledgeItem 0 items
      pure ⟨"📚 " ++ toString items.length ++ " knowledge entries:\n\n" ++
        String.intercalate "\n" lines, some (.arr items)⟩

/-- Handler of `beeboo_approval_request` (`tools.js` lines 132–152). -/
def approvalRequestHandler (args : Args) (t : TransportFn) : Except String ToolResult := do
  let body : JVal := .obj (ofld "title" (aget args "title") ++
    ofld "description" (aget args "description") ++
    [("category", .str "general"), ("urgency", .str "normal")])
  let res ← t ⟨"POST", "/api/v1/approvals", some body, []⟩
  if !(isOk res) then
    throw ("Failed to submit approval: " ++ jsToStr (getError res))
  else
    let result := getData res
    pure ⟨"⏳ Approval requested: \"" ++ jsToStrO (aget args "title") ++ "\"\nID: " ++
      jsToStr (jsOrD (jget result "id") (.str "unknown")) ++
      "\nStatus: pending\n\nWait for human approval before proceeding.", some result⟩

/-- A `text += '...' + value` section appended only when the value is
truthy (`beeboo_approval_check.handler` lines 177–185). -/
def optSection (pre : String) (o : Option JVal) : String :=
  match o with
  | some v => if jtruthy v then pre ++ jsToStr v else ""
  | none => ""

/-- Handler of `beeboo_approval_check` (`tools.js` lines 161–188).  The
source reads `approval.status` without optional chaining, so a null
payload raises a TypeError. -/
def approvalCheckHandler (args : Args) (t : TransportFn) : Except String ToolResult := do
  let idArg := aget args "id"
  let res ← t ⟨"GET", "/api/v1/approvals/" ++ jsToStrO idArg, none, []⟩
  if !(isOk res) then
    if res.status = 404 then
      throw ("Approval not found: " ++ jsToStrO idArg)
    else
      throw ("Failed to check approval: " ++ jsToStr (getError res))
  else
    let approval := getData res
    match approval with
    | .null => throw "TypeError: Cannot read properties of null"
    | _ =>
      let st := jget approval "status"
      let icon := if isStrEq st "approved" then "✅" else if isStrEq st "denied" then "❌" else "⏳"
      let text := icon ++ " Approval: " ++ jsToStrO (firstTruthyO [jget approval "title"] idArg) ++
        "\nStatus: " ++ jsToStr (jsOrD st (.str "pending")) ++
        optSection "\nDescription: " (jget approval "description") ++
        optSection "\nDecided: " (jget approval "decided_at") ++
        optSection "\nNote: " (jget approval "decision_note")
      pure ⟨text, some approval⟩

/-- Status icon of the approvals list renderer. -/
def statusIconA (st : Option JVal) : String :=
  if isStrEq st "approved" then "✅" else if isStrEq st "denied" then "❌" else "⏳"

/-- One line of the approvals list (`items.map((a, i) => ...)` in
`beeboo_approvals_list.handler`). -/
def renderApprovalItem (i : Nat) (a : JVal) : Except String String := do
  let idv ← jsIdPart (jget a "id")
  let title := jsToStrO (firstTruthyO [jget a "title"] (some (.str "(untitled)")))
  pure (toString (i + 1) ++ ". " ++ statusIconA (jget a "status") ++ " " ++ title ++
    " (" ++ idv ++ ") - " ++ jsToStr (jsOrD (jget a "status") (.str "pending")))

/-- Handler of `beeboo_approvals_list` (`tools.js` lines 198–226). -/
def approvalsListHandler (args : Args) (t : TransportFn) : Except String ToolResult := do
  let st := aget args "status"
  let query := if optTruthy st then [("status", st.getD .null)] else []
  let res ← t ⟨"GET", "/api/v1/approvals", none, query⟩
  if !(isOk res) then
    throw ("Failed to list approvals: " ++ jsToStr (getError res))
  else
    let items := toItems (getData res)
    if items.length = 0 then
      pure ⟨"No approvals found" ++
        (if optTruthy st then " with status \"" ++ jsToStrO st ++ "\"" else "") ++ ".",
        some (.arr [])⟩
    else do
      let lines ← renderItems renderApprovalItem 0 items
      pure ⟨"📋 " ++ toString items.length ++ " approval(s):\n\n" ++
        String.intercalate "\n" lines, some (.arr items)⟩

/-- Handler of `beeboo_request_create` (`tools.js` lines 242–261). -/
def requestCreateHandler (args : Args) (t : TransportFn) : Except String ToolResult := do
  let pr := jsOrD (aget args "priority") (.str "medium")
  let body : JVal := .obj (ofld "title" (aget args "title") ++
    [("description", jsOrD (aget args "description") (.str "")), ("priority", pr)])
  let res ← t ⟨"POST", "/api/v1/requests", some body, []⟩
  if !(isOk res) then
    throw ("Failed to create request: " ++ jsToStr (getError res))
  else
    let result := getData res
    pure ⟨"📋 Work request created: \"" ++ jsToStrO (aget args "title") ++ "\"\nID: " ++
      jsToStr (jsOrD (jget result "id") (.str "unknown")) ++ "\nPriority: " ++ jsToStr pr,
      some result⟩

/-- One line of the work-request list (`items.map((r, i) => ...)` in
`beeboo_requests_list.handler`). -/
def renderRequestItem (i : Nat) (r : JVal) : Except String String := do
  let idv ← jsIdPart (jget r "id")
  let title := jsToStrO (firstTruthyO [jget r "title"] (some (.str "(untitled)")))
  let st := jget r "status"
  let icon := if isStrEq st "resolved" then "✅" else if isStrEq st "in_progress" then "🔄" else "📋"
  let p := jget r "priority"
  let badge := if isStrEq p "critical" then "🔴" else if isStrEq p "high" then "🟠"
    else if isStrEq p "low" then "⚪" else "🟡"
  pure (toString (i + 1) ++ ". " ++ icon ++ " " ++ badge ++ " " ++ title ++ " (" ++ idv ++ ")")

/-- Handler of `beeboo_requests_list` (`tools.js` lines 271–302). -/
def requestsListHandler (args : Args) (t : TransportFn) : Except String ToolResult := do
  let st := aget args "status"
  let query := if optTruthy st then [("status", st.getD .null)] else []
  let res ← t ⟨"GET", "/api/v1/requests", none, query⟩
  if !(isOk res) then
    throw ("Failed to list requests: " ++ jsToStr (getError res))
  else
    let items := toItems (getData res)
    if items.length = 0 then
      pure ⟨"No work requests found" ++
        (if optTruthy st then " with status \"" ++ jsToStrO st ++ "\"" else "") ++ ".",
        some (.arr [])⟩
    else do
      let lines ← renderItems renderRequestItem 0 items
      pure ⟨"📋 " ++ toString items.length ++ " work request(s):\n\n" ++
        String.intercalate "\n" lines, some (.arr items)⟩

/-- Parameter kinds appearing in the Zod input schemas of `tools.js`:
`z.string()`, `z.enum([...])`, `z.array(z.string())`. -/
inductive PKind where
  | pstr : PKind
  | penum : List String → PKind
  | parrStr : PKind

/-- One declared schema field: name, kind, whether required (i.e. not
wrapped in `.optional()`), and its `.describe(...)` text. -/
structure PSpec where
  name : String
  kind : PKind
  required : Bool
  descr : String

/-- Zod acceptance of a present value for a declared kind. -/
def kindOK : PKind → JVal → Bool
  | .pstr, .str _ => true
  | .penum vs, .str s => vs.contains s
  | .parrStr, .arr l => l.all (fun v => match v with | .str _ => true | _ => false)
  | _, _ => false

/-- Validation of one declared field against the raw-argument object:
a present value must satisfy its kind; an absent value is allowed only
for optional fields (Zod treats `undefined` as absent). -/
def validateField (p : PSpec) (v : JVal) : Except String (List (String × JVal)) :=
  match jget v p.name with
  | some w => if kindOK p.kind w then pure [(p.name, w)] else
      throw ("Invalid value for argument: " ++ p.name)
  | none => if p.required then throw ("Required argument missing: " ++ p.name) else pure []

/-- Validation of all declared fields, keeping only schema keys
(`z.object` strips unknown keys) and failing when any field fails. -/
def validateFields : List PSpec → JVal → Except String Args
  | [], _ => pure []
  | p :: ps, v => do
    let f ← validateField p v
    let rest ← validateFields ps v
    pure (f ++ rest)

/-- The `args || \x7b\x7d` normalization in `executeTool`: a falsy
raw-argument value (`undefined`, `null`, `0`, `''`, `false`) is replaced
by the empty object.  `none` models `undefined`/an absent argument. -/
def normRaw : Option JVal → JVal
  | some v => if jtruthy v then v else .obj []
  | none => .obj []

/-- `z.object(tool.inputSchema).parse(args || \x7b\x7d)`: a non-object
raw value is rejected, otherwise each declared field is validated. -/
def validateArgs (sch : List PSpec) (raw : Option JVal) : Except String Args :=
  match normRaw raw with
  | .obj kvs => validateFields sch (.obj kvs)
  | _ => throw "Expected object"

/-- Well-typedness of an argument list with respect to a schema: every
declared field is either present with an accepted value or absent and
optional.  Validated arguments always satisfy this. -/
def argsWT (sch : List PSpec) (args : Args) : Bool :=
  sch.all (fun p =>
    match aget args p.name with
    | some v => kindOK p.kind v
    | none => !p.required)

/-- One registry entry of `tools` in `tools.js`: name, description,
input schema, handler. -/
structure ToolDef where
  name : String
  description : String
  schema : List PSpec
  handler : Args → TransportFn → Except String ToolResult

/-- Registry entry `tools.beeboo_knowledge_search`. -/
def searchTool : ToolDef :=
  { name := "beeboo_knowledge_search",
    description := "Search the BeeBoo knowledge base for information using semantic search",
    schema := [⟨"query", .pstr, true, "Search query - can be natural language"⟩],
    handler := searchHandler }

/-- Registry entry `tools.beeboo_knowledge_add`. -/
def knowledgeAddTool : ToolDef :=
  { name := "beeboo_knowledge_add",
    description := "Add a new entry to the BeeBoo knowledge base",
    schema := [⟨"title", .pstr, true, "Title of the knowledge entry"⟩,
               ⟨"content", .pstr, true, "Content/body of the entry"⟩,
               ⟨"tags", .parrStr, false, "Optional tags for categorization"⟩],
    handler := knowledgeAddHandler }

/-- Registry entry `tools.beeboo_knowledge_list`. -/
def knowledgeListTool : ToolDef :=
  { name := "beeboo_knowledge_list",
    description := "List all knowledge base entries",
    schema := [],
    handler := knowledgeListHandler }

/-- Registry entry `tools.beeboo_approval_request`. -/
def approvalRequestTool : ToolDef :=
  { name := "beeboo_approval_request",
    description := "Request human approval for an action. Use this when you need explicit permission before proceeding with a potentially impactful operation.",
    schema := [⟨"title", .pstr, true, "Brief description of what needs approval"⟩,
               ⟨"description", .pstr, true, "Detailed explanation of the request and why approval is needed"⟩],
    handler := approvalRequestHandler }

/-- Registry entry `tools.beeboo_approval_check`. -/
def approvalCheckTool : ToolDef :=
  { name := "beeboo_approval_check",
    description := "Check the status of an approval request",
    schema := [⟨"id", .pstr, true, "The approval request ID to check"⟩],
    handler := approvalCheckHandler }

/-- Registry entry `tools.beeboo_approvals_list`. -/
def approvalsListTool : ToolDef :=
  { name := "beeboo_approvals_list",
    description := "List all approval requests with optional status filter",
    schema := [⟨"status", .penum ["pending", "approved", "rejected"], false,
               "Filter by status: pending, approved, or rejected"⟩],
    handler := approvalsListHandler }

/-- Registry entry `tools.beeboo_request_create`. -/
def requestCreateTool : ToolDef :=
  { name := "beeboo_request_create",
    description := "Create a work request for the team. Use this to queue up tasks that need human attention or execution.",
    schema := [⟨"title", .pstr, true, "Brief title of the work request"⟩,
               ⟨"description", .pstr, false, "Detailed description of what needs to be done"⟩,
               ⟨"priority", .penum ["low", "medium", "high", "critical"], false,
               "Priority level: low, medium, high, or critical"⟩],
    handler := requestCreateHandler }

/-- Registry entry `tools.beeboo_requests_list`. -/
def requestsListTool : ToolDef :=
  { name := "beeboo_requests_list",
    description := "List all work requests with optional status filter",
    schema := [⟨"status", .penum ["open", "in_progress", "resolved"], false,
               "Filter by status: open, in_progress, or resolved"⟩],
    handler := requestsListHandler }

/-- The tool registry (`tools` in `tools.js`), in source order. -/
def tools : List ToolDef :=
  [searchTool, knowledgeAddTool, knowledgeListTool, approvalRequestTool,
   approvalCheckTool, approvalsListTool, requestCreateTool, requestsListTool]

/-- Registry lookup `tools[name]`. -/
def findTool (name : String) : Option ToolDef :=
  tools.find? (fun t => t.name == name)

/-- The dispatcher `executeTool` of `tools.js` (lines 377–389): look the
tool up, validate the raw arguments against its schema, then run the
handler.  Thrown JavaScript errors are modelled by `Except.error`. -/
def executeTool (name : String) (raw : Option JVal) (t : TransportFn) : Except String ToolResult :=
  match findTool name with
  | none => throw ("Unknown tool: " ++ name)
  | some tool => do
    let va ← validateArgs tool.schema raw
    tool.handler va t

/-- The protocol response shape returned by the bridge callbacks in
`server.js`: text content blocks, optional structured content, error
flag (`false` models the key being absent). -/
structure ProtocolResponse where
  content : List String
  structuredContent : Option JVal
  isError : Bool

/-- The per-tool `structuredContent` construction of the `server.js`
callbacks: the search callback wraps truthy data as
`\x7b results: data \x7d` and omits it otherwise; the three list
callbacks always wrap under `entries`/`approvals`/`requests` (with the
key dropped when the data is undefined, as JSON serialization does);
the remaining callbacks pass the handler data through unchanged. -/
def wrapStructured (name : String) (d : Option JVal) : Option JVal :=
  if name == "beeboo_knowledge_search" then
    match d with
    | some v => if jtruthy v then some (.obj [("results", v)]) else none
    | none => none
  else if name == "beeboo_knowledge_list" then some (.obj (ofld "entries" d))
  else if name == "beeboo_approvals_list" then some (.obj (ofld "approvals" d))
  else if name == "beeboo_requests_list" then some (.obj (ofld "requests" d))
  else d

/-- A registered callback of `registerTools` in `server.js`: delegate to
`executeTool`; on success wrap text and structured content, on any
thrown error return a single `"Error: " + message` text block with
`isError: true`. -/
def bridgeCall (name : String) (raw : Option JVal) (t : TransportFn) : ProtocolResponse :=
  match executeTool name raw t with
  | .ok r => { content := [r.text], structuredContent := wrapStructured name r.data, isError := false }
  | .error m => { content := ["Error: " ++ m], structuredContent := none, isError := true }

/-- `Array.isArray` on a JSON value. -/
def isArray : JVal → Bool
  | .arr _ => true
  | _ => false

/-- A non-array payload coerces to the empty item list in the list
handlers. -/
lemma toItems_eq_nil {d : JVal} (hd : isArray d = false) : toItems d = [] := by
  cases d <;> simp_all [isArray, toItems]

/-- Substring containment: `n` occurs contiguously inside `hay`. -/
def ContainsStr (hay n : String) : Prop := ∃ p s, hay = p ++ n ++ s

/-- A string contains every suffix appended to a prefix. -/
lemma containsStr_append (pre g : String) : ContainsStr (pre ++ g) g :=
  ⟨pre, "", by rw [String.append_empty]⟩

/-- Every character of a contained substring occurs in the container. -/
lemma containsStr_mem {hay n : String} (hc : ContainsStr hay n) :
    ∀ c ∈ n.data, c ∈ hay.data := by
  obtain ⟨p, s, rfl⟩ := hc
  intro c hcn
  rw [String.data_append, String.data_append]
  exact List.mem_append_left _ (List.mem_append_right _ hcn)

/-- Registry lookup by a registered tool's own name finds that tool
(names are unique in the registry). -/
lemma findTool_mem : ∀ tool ∈ tools, findTool tool.name = some tool := by
  intro tool htool
  fin_cases htool <;> rfl

/-- A raw-argument object missing a required schema field fails field
validation. -/
lemma validateFields_error_of_missing {v : JVal} :
    ∀ (sch : List PSpec) (p : PSpec), p ∈ sch → p.required = true → jget v p.name = none →
    ∃ e, validateFields sch v = .error e := by
  intro sch
  induction sch with
  | nil => intro p hp _ _; cases hp
  | cons q qs ih =>
    intro p hp hreq hmiss
    rcases List.mem_cons.mp hp with rfl | hp
    · exact ⟨"Required argument missing: " ++ p.name,
        by simp [validateFields, validateField, hmiss, hreq, Bind.bind, Except.bind]⟩
    · cases hq : validateField q v with
      | error e => exact ⟨e, by simp [validateFields, hq, Bind.bind, Except.bind]⟩
      | ok f =>
        obtain ⟨e, he⟩ := ih p hp hreq hmiss
        exact ⟨e, by simp [validateFields, hq, he, Bind.bind, Except.bind]⟩

/-- A raw-argument value missing a required schema field fails argument
validation. -/
lemma validateArgs_error_of_missing {raw : Option JVal} {sch : List PSpec} {p : PSpec}
    (hp : p ∈ sch) (hreq : p.required = true) (hmiss : jget (normRaw raw) p.name = none) :
    ∃ e, validateArgs sch raw = .error e := by
  rcases hn : normRaw raw with _ | b | n | s | l | kvs
  case obj =>
    rw [hn] at hmiss
    obtain ⟨e, he⟩ := validateFields_error_of_missing sch p hp hreq hmiss
    exact ⟨e, by simp [validateArgs, hn, he]⟩
  all_goals exact ⟨"Expected object",
    by simp [validateArgs, hn, throw, throwThe, MonadExceptOf.throw]⟩

/-- C2: for every tool with a required argument and every raw-argument
value missing that argument, the bridged `tools/call` returns
`isError: true` with a single text block starting with "Error: ", and
the outcome is independent of the transport — the HTTP request function
is never consulted. -/
theorem C2_validation_blocks_transport :
    ∀ tool ∈ tools, ∀ p ∈ tool.schema, p.required = true →
    ∀ raw : Option JVal, jget (normRaw raw) p.name = none →
    ∀ t : TransportFn,
      (bridgeCall tool.name raw t).isError = true ∧
      (∃ m, (bridgeCall tool.name raw t).content = ["Error: " ++ m]) ∧
      (∀ t2 : TransportFn, bridgeCall tool.name raw t = bridgeCall tool.name raw t2) := by
  intro tool htool p hp hreq raw hmiss t
  have hfind := findTool_mem tool htool
  obtain ⟨e, he⟩ := validateArgs_error_of_missing hp hreq hmiss
  have hexec : ∀ t' : TransportFn, executeTool tool.name raw t' = .error e := by
    intro t'
    simp [executeTool, hfind, he, Bind.bind, Except.bind]
  refine ⟨by simp [bridgeCall, hexec], ⟨e, by simp [bridgeCall, hexec]⟩, ?_⟩
  intro t2
  simp [bridgeCall, hexec]

/-- C2 witness: the search tool with empty raw arguments produces an
error response not consulting the transport. -/
theorem C2_witness :
    (bridgeCall searchTool.name (some (.obj [])) (constT ⟨200, .null, ""⟩)).isError = true :=
  (C2_validation_blocks_transport searchTool (List.Mem.head _)
    ⟨"query", .pstr, true, "Search query - can be natural language"⟩ (List.Mem.head _)
    rfl (some (.obj [])) rfl (constT ⟨200, .null, ""⟩)).1

/-- C9: dispatching with an absent (`undefined`) or `null` raw-argument
value behaves exactly like dispatching with the empty object; tools
without required fields validate successfully and proceed to their
handler, and tools with required fields fail with a validation error
rather than a crash. -/
theorem C9_null_args_like_empty_object :
    ∀ tool ∈ tools, ∀ t : TransportFn,
      executeTool tool.name none t = executeTool tool.name (some .null) t ∧
      executeTool tool.name none t = executeTool tool.name (some (.obj [])) t ∧
      ((tool.schema.filter (fun p => p.required)).length = 0 →
        ∃ va, validateArgs tool.schema none = .ok va ∧
          executeTool tool.name none t = tool.handler va t) ∧
      ((tool.schema.filter (fun p => p.required)).length ≠ 0 →
        ∃ e, validateArgs tool.schema none = .error e ∧
          executeTool tool.name none t = .error e) := by
  intro tool htool t
  fin_cases htool <;> refine ⟨rfl, rfl, ?_, ?_⟩ <;> intro h <;>
    first
      | exact absurd h (by decide)
      | exact absurd rfl h
      | exact ⟨[], rfl, rfl⟩
      | exact ⟨_, rfl, rfl⟩

/-- C9 witness: for the knowledge list tool, `undefined` and `null` raw
arguments dispatch identically. -/
theorem C9_witness :
    executeTool knowledgeListTool.name none (constT ⟨200, .null, ""⟩) =
      executeTool knowledgeListTool.name (some .null) (constT ⟨200, .null, ""⟩) :=
  (C9_null_args_like_empty_object knowledgeListTool
    (List.Mem.tail _ (List.Mem.tail _ (List.Mem.head _))) (constT ⟨200, .null, ""⟩)).1

/-- C10: for each of the three list tools, a successful (2xx) transport
result whose extracted payload is not an array is treated exactly like
an empty list — the handler succeeds with the filter-aware "none found"
text and empty structured data. -/
theorem C10_nonarray_payload_like_empty :
    ∀ res : TransportResult, isOk res = true → isArray (getData res) = false →
    ∀ args : Args,
      knowledgeListHandler args (constT res) =
        .ok ⟨"No knowledge entries found.", some (.arr [])⟩ ∧
      approvalsListHandler args (constT res) =
        .ok ⟨"No approvals found" ++
          (if optTruthy (aget args "status") then
            " with status \"" ++ jsToStrO (aget args "status") ++ "\"" else "") ++ ".",
          some (.arr [])⟩ ∧
      requestsListHandler args (constT res) =
        .ok ⟨"No work requests found" ++
          (if optTruthy (aget args "status") then
            " with status \"" ++ jsToStrO (aget args "status") ++ "\"" else "") ++ ".",
          some (.arr [])⟩ := by
  intro res hok hna args
  have hi := toItems_eq_nil hna
  refine ⟨?_, ?_, ?_⟩ <;>
    simp [knowledgeListHandler, approvalsListHandler, requestsListHandler, constT,
      Bind.bind, Except.bind, hok, hi, pure, Except.pure]

/-- C10 witness: a 2xx result with a null payload yields the "none
found" responses. -/
theorem C10_witness :
    knowledgeListHandler [] (constT ⟨200, .null, ""⟩) =
      .ok ⟨"No knowledge entries found.", some (.arr [])⟩ :=
  (C10_nonarray_payload_like_empty ⟨200, .null, ""⟩ rfl rfl []).1

/-- The not-found and generic approval-check messages are always
distinct (they differ already in their first character). -/
lemma approval_messages_distinct (idv g : String) :
    "Approval not found: " ++ idv ≠ "Failed to check approval: " ++ g := by
  intro hcontra
  have hdata := congrArg String.data hcontra
  rw [String.data_append, String.data_append] at hdata
  have hhead := congrArg List.head? hdata
  simp at hhead

/-- C7: for every id, an approval check against a 404 transport result
fails with exactly "Approval not found: <id>"; every other non-success
status fails with the generic "Failed to check approval: " message
carrying the extracted error, and the two messages never coincide. -/
theorem C7_approval_check_not_found :
    ∀ (args : Args) (idv : String), aget args "id" = some (.str idv) →
    ∀ res : TransportResult, res.status = 404 →
      approvalCheckHandler args (constT res) = .error ("Approval not found: " ++ idv) ∧
      (∀ res2 : TransportResult, isOk res2 = false → res2.status ≠ 404 →
        approvalCheckHandler args (constT res2) =
          .error ("Failed to check approval: " ++ jsToStr (getError res2))) ∧
      (∀ g : String, "Approval not found: " ++ idv ≠ "Failed to check approval: " ++ g) := by
  intro args idv hid res h404
  refine ⟨?_, ?_, fun g => approval_messages_distinct idv g⟩
  · have hok : isOk res = false := by simp [isOk, h404]
    simp [approvalCheckHandler, constT, Bind.bind, Except.bind, hok, h404, hid,
      jsToStrO, jsToStr, throw, throwThe, MonadExceptOf.throw]
  · intro res2 hok2 hne
    simp [approvalCheckHandler, constT, Bind.bind, Except.bind, hok2, hne,
      throw, throwThe, MonadExceptOf.throw]

/-- C7 witness: the concrete scenario of the spec, id "abc123" against
HTTP 404 (and 500 for the generic branch). -/
theorem C7_witness :
    approvalCheckHandler [("id", .str "abc123")] (constT ⟨404, .null, ""⟩) =
      .error ("Approval not found: " ++ "abc123") ∧
    approvalCheckHandler [("id", .str "abc123")] (constT ⟨500, .null, ""⟩) =
      .error ("Failed to check approval: " ++ jsToStr (getError ⟨500, .null, ""⟩)) := by
  have h := C7_approval_check_not_found [("id", .str "abc123")] "abc123" rfl
    ⟨404, .null, ""⟩ rfl
  exact ⟨h.1, h.2.1 ⟨500, .null, ""⟩ rfl (by decide)⟩

/-- C8: a search result whose content string is longer than 200
characters renders as exactly its first 200 characters followed by
"..."; content of 200 characters or fewer renders unchanged, with no
ellipsis. -/
theorem C8_content_truncation_boundary :
    ∀ s : String,
      (s.length > 200 → renderContent (some (.str s)) = .str (s.take 200 ++ "...")) ∧
      (s.length ≤ 200 → renderContent (some (.str s)) = .str s) := by
  intro s
  by_cases hs : s = ""
  · subst hs
    exact ⟨fun h => absurd h (by decide), fun _ => rfl⟩
  · have ht : jtruthy (.str s) = true := by simp [jtruthy, hs]
    constructor
    · intro hlen
      simp [renderContent, ht, jlength, hlen]
    · intro hlen
      simp [renderContent, ht, jlength]
      omega

set_option maxRecDepth 4000 in
/-- C8 witness: a 201-character content string is truncated with an
ellipsis; a 1-character string is rendered unchanged. -/
theorem C8_witness :
    renderContent (some (.str (String.mk (List.replicate 201 'a')))) =
      .str ((String.mk (List.replicate 201 'a')).take 200 ++ "...") ∧
    renderContent (some (.str "a")) = .str "a" :=
  ⟨(C8_content_truncation_boundary (String.mk (List.replicate 201 'a'))).1 (by decide),
   (C8_content_truncation_boundary "a").2 (by decide)⟩

/-- C4 counterexample: an empty-string response body (an empty non-JSON
response) makes `getError` return the empty string — the claimed
"non-empty for every input" guarantee fails, while the claim's own
body-is-a-string clause forces exactly this return value. -/
theorem C4_counterexample :
    getError ⟨500, .str "", ""⟩ = .str "" ∧
    (jsToStr (getError ⟨500, .str "", ""⟩)).length = 0 := by
  exact ⟨rfl, rfl⟩

/-- C4 (amended): `getError` returns `body.error.message` when that
value is truthy; otherwise a truthy `body.error` as-is when it is a
string and its JSON stringification when not; otherwise the body itself
when the body is a string (so an empty-string body yields an empty
message); otherwise the generic "HTTP <status>" message, which is
always non-empty. -/
theorem C4_error_extraction :
    ∀ res : TransportResult,
      (∀ v, (jget res.data "error").bind (fun e => jget e "message") = some v →
        jtruthy v = true → getError res = v) ∧
      (optTruthy ((jget res.data "error").bind (fun e => jget e "message")) = false →
        ∀ w, jget res.data "error" = some w → jtruthy w = true →
          getError res = match w with | .str s => .str s | _ => .str (jsonStringify w)) ∧
      (optTruthy ((jget res.data "error").bind (fun e => jget e "message")) = false →
        optTruthy (jget res.data "error") = false →
        ∀ s, res.data = .str s → getError res = .str s) ∧
      (optTruthy ((jget res.data "error").bind (fun e => jget e "message")) = false →
        optTruthy (jget res.data "error") = false →
        (∀ s, res.data ≠ .str s) →
        getError res = .str ("HTTP " ++ toString res.status) ∧
          (jsToStr (getError res)).length > 0) := by
  intro res
  refine ⟨?_, ?_, ?_, ?_⟩
  · intro v hv htr
    simp [getError, hv, optTruthy, htr]
  · intro hm w hw htr
    cases w <;> simp_all [getError, optTruthy, jtruthy]
  · intro hm he s hs
    simp [getError, hs, jget, optTruthy]
  · intro hm he hns
    have hgw : getError res = .str ("HTTP " ++ toString res.status) := by
      rcases hd : res.data with _ | b | n | s | l | kvs
      case str => exact absurd hd (hns s)
      case obj => simp_all [getError, hd]
      all_goals simp [getError, hd, jget, optTruthy]
    refine ⟨hgw, ?_⟩
    rw [hgw]
    show ("HTTP " ++ toString res.status).length > 0
    rw [String.length_append]
    have h5 : ("HTTP " : String).length = 5 := rfl
    omega

/-- C4 witness: a truthy nested message is returned as-is; a 404 with a
null body falls back to the non-empty "HTTP 404". -/
theorem C4_witness :
    getError ⟨500, .obj [("error", .obj [("message", .str "nope")])], ""⟩ = .str "nope" ∧
    getError ⟨404, .null, ""⟩ = .str ("HTTP " ++ toString (404 : Nat)) := by
  constructor
  · exact (C4_error_extraction ⟨500, .obj [("error", .obj [("message", .str "nope")])], ""⟩).1
      (.str "nope") rfl rfl
  · exact ((C4_error_extraction ⟨404, .null, ""⟩).2.2.2 rfl rfl
      (fun s h => by cases h)).1

/-- C6 counterexample: a successful search with zero results returns a
result carrying NO structured data at all (`data` is omitted), not the
claimed empty data value — unlike the list handlers, the zero-result
branch of the search handler has no `data` field. -/
theorem C6_counterexample :
    searchHandler [("query", .str "q")] (constT ⟨200, .arr [], ""⟩) =
      .ok ⟨"No results found for \"q\"", none⟩ ∧
    (none : Option JVal) ≠ some (.arr []) := by
  exact ⟨rfl, by simp⟩

/-- C6 (amended): for every successful search transport result resolving
to zero results, the handler returns the "no results" text with the
data field omitted (not an empty data value); for every non-empty
resolved result list it returns the enumerated summary text (in
original order) together with the raw result list as data. -/
theorem C6_search_result_shapes :
    ∀ (args : Args) (res : TransportResult), isOk res = true →
      (resolveResults (getData res) = .arr [] →
        searchHandler args (constT res) =
          .ok ⟨"No results found for \"" ++ jsToStrO (aget args "query") ++ "\"", none⟩) ∧
      (∀ l, l ≠ [] → resolveResults (getData res) = .arr l →
        searchHandler args (constT res) =
          .ok ⟨"Found " ++ toString l.length ++ " result(s) for \"" ++
            jsToStrO (aget args "query") ++ "\":\n\n" ++ renderResults l,
            some (.arr l)⟩) := by
  intro args res hok
  constructor
  · intro hres
    simp [searchHandler, constT, Bind.bind, Except.bind, hok, hres, pure, Except.pure]
  · intro l hl hres
    cases l with
    | nil => exact absurd rfl hl
    | cons x xs =>
      simp [searchHandler, constT, Bind.bind, Except.bind, hok, hres, pure, Except.pure]

/-- C6 witness: a backend returning three results produces the
enumerated summary and the raw list as data. -/
theorem C6_witness :
    searchHandler [("query", .str "deploy")]
      (constT ⟨200, .arr [.obj [("title", .str "a")], .obj [("title", .str "b")],
        .obj [("title", .str "c")]], ""⟩) =
      .ok ⟨"Found " ++ toString (3 : Nat) ++ " result(s) for \"" ++
        jsToStrO (aget [("query", .str "deploy")] "query") ++ "\":\n\n" ++
        renderResults [.obj [("title", .str "a")], .obj [("title", .str "b")],
          .obj [("title", .str "c")]],
        some (.arr [.obj [("title", .str "a")], .obj [("title", .str "b")],
          .obj [("title", .str "c")]])⟩ :=
  (C6_search_result_shapes [("query", .str "deploy")]
    ⟨200, .arr [.obj [("title", .str "a")], .obj [("title", .str "b")],
      .obj [("title", .str "c")]], ""⟩ rfl).2
    [.obj [("title", .str "a")], .obj [("title", .str "b")], .obj [("title", .str "c")]]
    (by simp) rfl

/-- C1 counterexample: a successful search invocation whose handler
returns data `[ \x7b title: "a" \x7d ]` produces a protocol response
whose `structuredContent` is the wrapper object
`\x7b results: [...] \x7d`, not the handler's data value itself. -/
theorem C1_counterexample :
    executeTool "beeboo_knowledge_search" (some (.obj [("query", .str "q")]))
        (constT ⟨200, .arr [.obj [("title", .str "a")]], ""⟩) =
      .ok ⟨"Found 1 result(s) for \"q\":\n\n1. **a**\n   ",
        some (.arr [.obj [("title", .str "a")]])⟩ ∧
    (bridgeCall "beeboo_knowledge_search" (some (.obj [("query", .str "q")]))
        (constT ⟨200, .arr [.obj [("title", .str "a")]], ""⟩)).structuredContent =
      some (.obj [("results", .arr [.obj [("title", .str "a")]])]) ∧
    some (JVal.obj [("results", .arr [.obj [("title", .str "a")]])]) ≠
      some (JVal.arr [.obj [("title", .str "a")]]) := by
  refine ⟨rfl, rfl, ?_⟩
  simp

/-- C1 (amended): on handler success the protocol response always has a
single text block carrying the handler's text and no error flag, but
`structuredContent` is tool-dependent: the search callback wraps truthy
data as `\x7b results: data \x7d` and omits it otherwise; the knowledge,
approvals and requests list callbacks always wrap the data under
`entries`/`approvals`/`requests` (dropping the key when the data is
absent); the remaining four callbacks pass the handler's data through
unchanged, omitting it when absent. -/
theorem C1_success_wrapping :
    ∀ (name : String) (raw : Option JVal) (t : TransportFn) (r : ToolResult),
      executeTool name raw t = .ok r →
      bridgeCall name raw t =
        { content := [r.text],
          structuredContent :=
            if name == "beeboo_knowledge_search" then
              match r.data with
              | some v => if jtruthy v then some (.obj [("results", v)]) else none
              | none => none
            else if name == "beeboo_knowledge_list" then some (.obj (ofld "entries" r.data))
            else if name == "beeboo_approvals_list" then some (.obj (ofld "approvals" r.data))
            else if name == "beeboo_requests_list" then some (.obj (ofld "requests" r.data))
            else r.data,
          isError := false } := by
  intro name raw t r hexec
  simp [bridgeCall, hexec, wrapStructured]

/-- C1 witness: the pass-through shape for the approval-request tool. -/
theorem C1_witness :
    bridgeCall "beeboo_approval_request"
        (some (.obj [("title", .str "T"), ("description", .str "D")]))
        (constT ⟨200, .obj [("data", .obj [("id", .str "i1")])], ""⟩) =
      { content := ["⏳ Approval requested: \"T\"\nID: i1\nStatus: pending\n\nWait for human approval before proceeding."],
        structuredContent := some (.obj [("id", .str "i1")]),
        isError := false } := by
  have h := C1_success_wrapping "beeboo_approval_request"
    (some (.obj [("title", .str "T"), ("description", .str "D")]))
    (constT ⟨200, .obj [("data", .obj [("id", .str "i1")])], ""⟩)
    ⟨"⏳ Approval requested: \"T\"\nID: i1\nStatus: pending\n\nWait for human approval before proceeding.",
      some (.obj [("id", .str "i1")])⟩ rfl
  exact h

/-- C3 counterexample: the approval-check handler against HTTP 404 with
a null body fails with "Approval not found: abc123", which does not
contain the extracted error message "HTTP 404" — so not every handler
failure carries the extracted message. -/
theorem C3_counterexample :
    approvalCheckHandler [("id", .str "abc123")] (constT ⟨404, .null, ""⟩) =
      .error "Approval not found: abc123" ∧
    jsToStr (getError ⟨404, .null, ""⟩) = "HTTP 404" ∧
    ¬ ContainsStr "Approval not found: abc123" "HTTP 404" := by
  refine ⟨rfl, rfl, ?_⟩
  intro hc
  exact absurd (containsStr_mem hc 'H' (by decide)) (by decide)

/-- C3 (amended): for every registered tool, well-typed arguments and
non-success transport result, the handler fails (never returns a
success result); the failure message contains the extracted error
message, except that the approval-check tool on status 404 fails with
its dedicated not-found message instead. -/
theorem C3_handler_error_propagation :
    ∀ tool ∈ tools, ∀ args : Args, argsWT tool.schema args = true →
    ∀ res : TransportResult, isOk res = false →
    ∃ m, tool.handler args (constT res) = .error m ∧
      ((tool.name = "beeboo_approval_check" ∧ res.status = 404) ∨
        ContainsStr m (jsToStr (getError res))) := by
  intro tool htool args hwt res hok
  fin_cases htool
  · refine ⟨"Search failed: " ++ jsToStr (getError res), ?_,
      Or.inr (containsStr_append _ _)⟩
    simp [searchTool, searchHandler, constT, Bind.bind, Except.bind, hok,
      throw, throwThe, MonadExceptOf.throw]
  · cases htitle : aget args "title" with
    | none => simp [knowledgeAddTool, argsWT, htitle] at hwt
    | some v =>
      cases v
      case str s =>
        refine ⟨"Failed to create entry: " ++ jsToStr (getError res), ?_,
          Or.inr (containsStr_append _ _)⟩
        simp [knowledgeAddTool, knowledgeAddHandler, htitle, constT, Bind.bind,
          Except.bind, hok, throw, throwThe, MonadExceptOf.throw]
      all_goals simp [knowledgeAddTool, argsWT, htitle, kindOK] at hwt
  · refine ⟨"Failed to list entries: " ++ jsToStr (getError res), ?_,
      Or.inr (containsStr_append _ _)⟩
    simp [knowledgeListTool, knowledgeListHandler, constT, Bind.bind, Except.bind, hok,
      throw, throwThe, MonadExceptOf.throw]
  · refine ⟨"Failed to submit approval: " ++ jsToStr (getError res), ?_,
      Or.inr (containsStr_append _ _)⟩
    simp [approvalRequestTool, approvalRequestHandler, constT, Bind.bind, Except.bind, hok,
      throw, throwThe, MonadExceptOf.throw]
  · by_cases h404 : res.status = 404
    · refine ⟨"Approval not found: " ++ jsToStrO (aget args "id"), ?_, Or.inl ⟨rfl, h404⟩⟩
      simp [approvalCheckTool, approvalCheckHandler, constT, Bind.bind, Except.bind, hok,
        h404, throw, throwThe, MonadExceptOf.throw]
    · refine ⟨"Failed to check approval: " ++ jsToStr (getError res), ?_,
        Or.inr (containsStr_append _ _)⟩
      simp [approvalCheckTool, approvalCheckHandler, constT, Bind.bind, Except.bind, hok,
        h404, throw, throwThe, MonadExceptOf.throw]
  · refine ⟨"Failed to list approvals: " ++ jsToStr (getError res), ?_,
      Or.inr (containsStr_append _ _)⟩
    simp [approvalsListTool, approvalsListHandler, constT, Bind.bind, Except.bind, hok,
      throw, throwThe, MonadExceptOf.throw]
  · refine ⟨"Failed to create request: " ++ jsToStr (getError res), ?_,
      Or.inr (containsStr_append _ _)⟩
    simp [requestCreateTool, requestCreateHandler, constT, Bind.bind, Except.bind, hok,
      throw, throwThe, MonadExceptOf.throw]
  · refine ⟨"Failed to list requests: " ++ jsToStr (getError res), ?_,
      Or.inr (containsStr_append _ _)⟩
    simp [requestsListTool, requestsListHandler, constT, Bind.bind, Except.bind, hok,
      throw, throwThe, MonadExceptOf.throw]

/-- C3 witness: the search handler fails on a 500 result with the
extracted message embedded. -/
theorem C3_witness :
    ∃ m, searchTool.handler [("query", .str "q")] (constT ⟨500, .null, ""⟩) = .error m ∧
      ((searchTool.name = "beeboo_approval_check" ∧ (500 : Nat) = 404) ∨
        ContainsStr m (jsToStr (getError ⟨500, .null, ""⟩))) :=
  C3_handler_error_propagation searchTool (List.Mem.head _) [("query", .str "q")] rfl
    ⟨500, .null, ""⟩ rfl

/-- Modelled from the spec: "collapses every run of non-alphanumeric
characters into a single separator" — each maximal run of
non-`[a-z0-9]` characters becomes one dash. -/
def collapseRunsSpec : List Char → List Char
  | [] => []
  | c :: cs =>
    if isSlugChar c then c :: collapseRunsSpec cs
    else '-' :: collapseRunsSpec (cs.dropWhile (fun d => !isSlugChar d))
termination_by l => l.length
decreasing_by
  simp_wf
  have hlen := (List.dropWhile_suffix (l := cs) (fun d => !isSlugChar d)).sublist.length_le
  rw [List.length_cons]
  omega

/-- Modelled from the spec: "trims leading and trailing separators" —
all leading and all trailing dashes removed. -/
def trimSeps (l : List Char) : List Char :=
  ((l.dropWhile (fun c => c == '-')).reverse.dropWhile (fun c => c == '-')).reverse

/-- Modelled from the spec: the slug derivation as described —
lowercase, collapse runs of non-alphanumerics to single separators,
trim leading and trailing separators. -/
def specSlug (title : String) : String :=
  String.mk (trimSeps (collapseRunsSpec (title.data.map Char.toLower)))

/-- In-run scanning equals skipping the rest of the run and restarting
outside a run. -/
lemma collapseAux_true_eq_dropWhile (l : List Char) :
    collapseAux true l = collapseAux false (l.dropWhile (fun d => !isSlugChar d)) := by
  induction l with
  | nil => rfl
  | cons c cs ih =>
    by_cases hc : isSlugChar c = true
    · simp [collapseAux, hc, List.dropWhile_cons]
    · simp [collapseAux, hc, List.dropWhile_cons, ih]

/-- The code's regex-replace scan computes the spec's run collapsing. -/
lemma collapse_eq_spec (l : List Char) : collapseAux false l = collapseRunsSpec l := by
  have key : ∀ (n : Nat) (l : List Char), l.length = n →
      collapseAux false l = collapseRunsSpec l := by
    intro n
    induction n using Nat.strong_induction_on with
    | _ n ih =>
      intro l hn
      cases l with
      | nil => simp [collapseAux, collapseRunsSpec]
      | cons c cs =>
        by_cases hc : isSlugChar c = true
        · rw [show collapseAux false (c :: cs) = c :: collapseAux false cs from
            by simp [collapseAux, hc]]
          rw [ih cs.length (by rw [← hn]; simp) cs rfl]
          simp [collapseRunsSpec, hc]
        · rw [show collapseAux false (c :: cs) = '-' :: collapseAux true cs from
            by simp [collapseAux, hc]]
          rw [collapseAux_true_eq_dropWhile]
          have hlen := (List.dropWhile_suffix (l := cs)
            (fun d => !isSlugChar d)).sublist.length_le
          rw [ih (cs.dropWhile (fun d => !isSlugChar d)).length
            (by rw [← hn, List.length_cons]; omega) _ rfl]
          simp [collapseRunsSpec, hc]
  exact key l.length l rfl

/-- Slug characters are never the separator. -/
lemma isSlugChar_ne_dash {c : Char} (h : isSlugChar c = true) : c ≠ '-' := by
  rintro rfl
  exact absurd h (by decide)

/-- The head emitted while inside a run is always a slug character. -/
lemma collapseAux_true_head (l : List Char) :
    ∀ c cs, collapseAux true l = c :: cs → isSlugChar c = true := by
  induction l with
  | nil => intro c cs h; simp [collapseAux] at h
  | cons a as ih =>
    intro c cs h
    by_cases ha : isSlugChar a = true
    · rw [show collapseAux true (a :: as) = a :: collapseAux false as from
        by simp [collapseAux, ha]] at h
      cases h
      exact ha
    · rw [show collapseAux true (a :: as) = collapseAux true as from
        by simp [collapseAux, ha]] at h
      exact ih c cs h

/-- Adjacent output characters are never both dashes. -/
def SepOK (a b : Char) : Prop := a ≠ '-' ∨ b ≠ '-'

/-- Collapsed output never contains two adjacent dashes. -/
lemma collapseAux_chain (l : List Char) : ∀ b, List.Chain' SepOK (collapseAux b l) := by
  induction l with
  | nil => intro b; simp [collapseAux]
  | cons c cs ih =>
    intro b
    by_cases hc : isSlugChar c = true
    · rw [show collapseAux b (c :: cs) = c :: collapseAux false cs from
        by cases b <;> simp [collapseAux, hc]]
      rw [List.chain'_cons']
      exact ⟨fun y _ => Or.inl (isSlugChar_ne_dash hc), ih false⟩
    · cases b with
      | true =>
        rw [show collapseAux true (c :: cs) = collapseAux true cs from
          by simp [collapseAux, hc]]
        exact ih true
      | false =>
        rw [show collapseAux false (c :: cs) = '-' :: collapseAux true cs from
          by simp [collapseAux, hc]]
        rw [List.chain'_cons']
        refine ⟨?_, ih true⟩
        intro y hy
        cases hout : collapseAux true cs with
        | nil => rw [hout] at hy; cases hy
        | cons z zs =>
          rw [hout] at hy
          simp at hy
          subst hy
          exact Or.inr (isSlugChar_ne_dash (collapseAux_true_head cs z zs hout))

/-- On dash-separated output, removing all leading dashes is removing
at most one. -/
lemma dropWhile_eq_dropOneLead {X : List Char} (h : List.Chain' SepOK X) :
    X.dropWhile (fun c => c == '-') = dropOneLead X := by
  cases X with
  | nil => rfl
  | cons x xs =>
    by_cases hx : x = '-'
    · subst hx
      rw [List.dropWhile_cons]
      simp only [beq_self_eq_true, if_true]
      cases xs with
      | nil => rfl
      | cons y ys =>
        have hy : y ≠ '-' := by
          rcases (List.chain'_cons.mp h).1 with h1 | h2
          · exact absurd rfl h1
          · exact h2
        rw [List.dropWhile_cons]
        simp [hy, dropOneLead]
    · rw [List.dropWhile_cons]
      simp [hx, dropOneLead]

/-- The no-adjacent-dash invariant survives reversal. -/
lemma chain_reverse_sepOK {X : List Char} (h : List.Chain' SepOK X) :
    List.Chain' SepOK X.reverse := by
  rw [List.chain'_reverse]
  exact h.imp (fun a b hab => Or.symm hab)

/-- The no-adjacent-dash invariant survives one leading-dash removal. -/
lemma chain_dropOneLead {X : List Char} (h : List.Chain' SepOK X) :
    List.Chain' SepOK (dropOneLead X) := by
  cases X with
  | nil => exact h
  | cons x xs =>
    by_cases hx : x = '-'
    · simpa [dropOneLead, hx] using h.tail
    · simpa [dropOneLead, hx] using h

/-- On dash-separated output, removing one trailing dash is removing
all trailing dashes. -/
lemma dropOneTrail_eq_trim {X : List Char} (h : List.Chain' SepOK X) :
    dropOneTrail X = (X.reverse.dropWhile (fun c => c == '-')).reverse := by
  unfold dropOneTrail
  rw [dropWhile_eq_dropOneLead (chain_reverse_sepOK h)]

/-- C5: the create-entry slug derivation lowercases the title, collapses
every run of non-alphanumeric characters into a single separator, and
trims leading and trailing separators (the code's one-shot `^-`/`-$`
removal coincides with full trimming because collapsed output never has
two adjacent dashes); in particular "Deploy Hotfix!!" yields
"deploy-hotfix". -/
theorem C5_slug_derivation :
    (∀ title : String, slugify title = specSlug title) ∧
    slugify "Deploy Hotfix!!" = "deploy-hotfix" := by
  constructor
  · intro title
    unfold slugify specSlug trimSeps
    rw [collapse_eq_spec]
    have hch : List.Chain' SepOK (collapseRunsSpec (title.data.map Char.toLower)) := by
      rw [← collapse_eq_spec]
      exact collapseAux_chain _ false
    rw [dropOneTrail_eq_trim (chain_dropOneLead hch),
      dropWhile_eq_dropOneLead hch]
  · decide
